import Mathlib

/-!
Verification of the BLE advertising subsystem of the airchainpay-wallet
repository (src/bluetooth/BLEAdvertisingEnhancements.ts), as a shallow
embedding in Lean 4.  JavaScript `Map` objects holding mutable record
objects are modelled with an explicit heap (reference id → record), so
that reference sharing between the live map and returned snapshots is
captured faithfully.  Asynchronous driver calls are modelled as values
of an outcome type (resolved boolean or thrown error message), and the
side effects of an operation (driver invocations, timer waits) are
returned as an explicit event trace.
-/

namespace AirChainPay

/-- Modelled from the spec: `BLEPaymentPayload` is imported from
`BluetoothManager.ts`, which is not among the provided sources.  The spec
describes it as carrying a sender wallet address and a creation timestamp,
with the remaining payment fields treated as opaque data.  Only
`walletAddress` (JS-falsy iff the empty string) and `timestamp` (JS-falsy
iff 0) are inspected by the advertising subsystem. -/
structure BLEPaymentPayload where
  walletAddress : String
  timestamp : Int
deriving DecidableEq, Repr

/-- `AdvertisingConfig` from BLEAdvertisingEnhancements.ts.  Optional
TypeScript fields (`timeout?`, `interval?`, `payload?`) become `Option`. -/
structure AdvertisingConfig where
  deviceName : String
  serviceUUID : String
  manufacturerData : List Nat
  txPowerLevel : Int
  advertiseMode : Int
  includeDeviceName : Bool
  includeTxPowerLevel : Bool
  connectable : Bool
  timeout : Option Int := none
  interval : Option Int := none
  payload : Option BLEPaymentPayload := none
deriving DecidableEq, Repr

/-- `AdvertisingMetrics` from BLEAdvertisingEnhancements.ts. -/
structure AdvertisingMetrics where
  startTime : Int
  stopTime : Option Int := none
  duration : Int
  success : Bool
  errorCount : Nat
  restartCount : Nat
  payloadTransmitted : Option Bool := none
deriving DecidableEq, Repr

/-- Hexadecimal digit as accepted by the character class `[0-9a-f]` under
the `/i` (case-insensitive) regex flag. -/
def isHexDigit (c : Char) : Bool :=
  (('0' ≤ c && c ≤ '9') || ('a' ≤ c && c ≤ 'f') || ('A' ≤ c && c ≤ 'F'))

/-- Consume exactly `n` hex digits from the front of a character list,
returning the rest, or `none` if that is impossible. -/
def matchHex : Nat → List Char → Option (List Char)
  | 0, cs => some cs
  | _ + 1, [] => none
  | n + 1, c :: cs => if isHexDigit c then matchHex n cs else none

/-- Consume a single hyphen. -/
def matchDash : List Char → Option (List Char)
  | [] => none
  | c :: cs => if c = '-' then some cs else none

/-- `isValidUUID` from BLEAdvertisingEnhancements.ts: the regex
`^[0-9a-f]{8}-[0-9a-f]{4}-[0-9a-f]{4}-[0-9a-f]{4}-[0-9a-f]{12}$/i`,
embedded as a sequential matcher over the string's characters that must
consume the whole input. -/
def isValidUUID (uuid : String) : Bool :=
  (((((((((matchHex 8 uuid.data).bind matchDash).bind (matchHex 4)).bind
    matchDash).bind (matchHex 4)).bind matchDash).bind (matchHex 4)).bind
    matchDash).bind (matchHex 12)) = some []

/-- Result of `validateAdvertisingConfig`. -/
structure ValidationResult where
  valid : Bool
  errors : List String
deriving DecidableEq, Repr

/-- `validateAdvertisingConfig` from BLEAdvertisingEnhancements.ts.  Each
check appends its error message; JS truthiness tests on strings mean
"non-empty", on the optional numeric `interval` the guard
`config.interval && ...` means "present and non-zero", and on the payload
fields `!payload.walletAddress` / `!payload.timestamp` mean empty string /
zero respectively.  `valid` is `errors.length === 0`. -/
def validateAdvertisingConfig (config : AdvertisingConfig) : ValidationResult :=
  let errors : List String :=
    (if config.deviceName = "" then ["Device name is required"] else []) ++
    (if config.serviceUUID = "" then ["Service UUID is required"] else []) ++
    (if !(isValidUUID config.serviceUUID) then ["Invalid service UUID format"] else []) ++
    (if config.txPowerLevel < -30 || config.txPowerLevel > 10 then
      ["TX power level must be between -30 and 10 dBm"] else []) ++
    (if config.advertiseMode < 0 || config.advertiseMode > 2 then
      ["Advertise mode must be 0, 1, or 2"] else []) ++
    (match config.interval with
      | none => []
      | some i =>
        if i ≠ 0 && (i < 20 || i > 10240) then
          ["Advertising interval must be between 20ms and 10240ms"] else []) ++
    (match config.payload with
      | none => []
      | some p =>
        (if p.walletAddress = "" then ["Payload wallet address is required"] else []) ++
        (if p.timestamp = 0 then ["Payload timestamp is required"] else []))
  { valid := errors.isEmpty, errors := errors }

/-- The UTF-8 bytes of a serialization of the payload, standing for
`Buffer.from(JSON.stringify(payload), 'utf8').toJSON().data`.  The exact
JSON text depends on fields of `BLEPaymentPayload` defined outside the
provided sources, so the encoding abstracts to the fields the spec names;
no claim depends on these bytes. -/
def payloadManufacturerData (p : BLEPaymentPayload) : List Nat :=
  (String.toUTF8 (p.walletAddress ++ "|" ++ toString p.timestamp)).toList.map (fun b => b.toNat)

/-- `createPaymentAdvertisingConfig` from BLEAdvertisingEnhancements.ts.
The source sets `advertiseMode: 0` (annotated `ADVERTISE_MODE_BALANCED`). -/
def createPaymentAdvertisingConfig (deviceName : String) (serviceUUID : String)
    (payload : BLEPaymentPayload) : AdvertisingConfig :=
  { deviceName := deviceName
    serviceUUID := serviceUUID
    manufacturerData := payloadManufacturerData payload
    txPowerLevel := -12
    advertiseMode := 0
    includeDeviceName := true
    includeTxPowerLevel := true
    connectable := true
    timeout := some 60000
    interval := some 100
    payload := some payload }

/-- Outcome of an awaited driver promise: resolved to a boolean, or
rejected/thrown with an error message (the message is the result of
`error instanceof Error ? error.message : String(error)`). -/
inductive DriverResult where
  | ok (b : Bool)
  | thrown (msg : String)
deriving DecidableEq, Repr

/-- The serialized advertising message handed to `startBroadcast`.
`JSON.stringify` of the payload, or of the descriptor object
`\x7bname, serviceUUID, type: 'AirChainPay', version: '1.0.0', timestamp\x7d`,
modelled injectively on the data it encodes. -/
inductive AdvMessage where
  | payloadMsg (p : BLEPaymentPayload)
  | descriptor (name serviceUUID : String) (timestamp : Int)
deriving DecidableEq, Repr

/-- The `Advertiser` interface (the injected radio driver). -/
structure Advertiser where
  startBroadcast : AdvMessage → DriverResult
  stopBroadcast : DriverResult
  isAdvertising : Bool

/-- Externally visible side effect of an operation: a driver invocation or
a timer suspension (milliseconds). -/
inductive Event where
  | startBroadcastCall (msg : AdvMessage)
  | stopBroadcastCall
  | wait (ms : Nat)
deriving DecidableEq, Repr

/-- Association-list lookup (first binding wins), modelling `Map.get`. -/
def lookupA {α β : Type} [DecidableEq α] : List (α × β) → α → Option β
  | [], _ => none
  | (k, v) :: rest, k' => if k = k' then some v else lookupA rest k'

/-- Association-list update (replace in place, else append), modelling
`Map.set`: insertion order of keys is preserved. -/
def setA {α β : Type} [DecidableEq α] : List (α × β) → α → β → List (α × β)
  | [], k, v => [(k, v)]
  | (k0, v0) :: rest, k, v =>
    if k0 = k then (k, v) :: rest else (k0, v0) :: setA rest k v

/-- Association-list deletion, modelling `Map.delete` (all bindings of the
key are removed; the maps being modelled have unique keys). -/
def eraseA {α β : Type} [DecidableEq α] : List (α × β) → α → List (α × β)
  | [], _ => []
  | p :: rest, k => if p.1 = k then eraseA rest k else p :: eraseA rest k

/-- The mutable state of the `BLEAdvertisingEnhancements` singleton.  JS
`Map` values are object references; the records themselves live in an
explicit heap keyed by reference id so that sharing between the live map
and snapshot copies is modelled faithfully. -/
structure TrackerState where
  heap : List (Nat × AdvertisingMetrics)
  nextRef : Nat
  metrics : List (String × Nat)
  restartAttempts : List (String × Nat)
deriving Repr

/-- The freshly constructed singleton: empty metrics and restart maps. -/
def initialState : TrackerState :=
  { heap := [], nextRef := 0, metrics := [], restartAttempts := [] }

/-- `maxRestartAttempts = 3` from the source. -/
def maxRestartAttempts : Nat := 3

/-- `restartDelay = 2000` (milliseconds) from the source. -/
def restartDelay : Nat := 2000

/-- Private `recordMetrics`: builds a fresh `AdvertisingMetrics` object
(`errorCount` 1 when an error string is present, `restartCount` 0,
`duration` 0) and stores it under the session id, replacing any previous
record.  A fresh heap reference is allocated: `this.metrics.set` makes the
map entry point at the new object. -/
def recordMetrics (st : TrackerState) (sessionId : String) (startTime : Int)
    (success : Bool) (error : Option String) (payloadTransmitted : Option Bool) :
    TrackerState :=
  let m : AdvertisingMetrics :=
    { startTime := startTime
      success := success
      errorCount := if error.isSome then 1 else 0
      restartCount := 0
      duration := 0
      stopTime := none
      payloadTransmitted := payloadTransmitted }
  { st with
      heap := setA st.heap st.nextRef m
      nextRef := st.nextRef + 1
      metrics := setA st.metrics sessionId st.nextRef }

/-- In-place mutation of the metrics record a session id points at
(`const metrics = this.metrics.get(sessionId); if (metrics) \x7b ... \x7d`):
the object is updated through its reference, the map entry is unchanged. -/
def updateRecord (st : TrackerState) (sessionId : String)
    (f : AdvertisingMetrics → AdvertisingMetrics) : TrackerState :=
  match lookupA st.metrics sessionId with
  | none => st
  | some r =>
    match lookupA st.heap r with
    | none => st
    | some m => { st with heap := setA st.heap r (f m) }

/-- Result record `\x7bsuccess, error?\x7d` of start/stop operations. -/
structure OpResult where
  success : Bool
  error : Option String
deriving DecidableEq, Repr

/-- The advertising message built by `startAdvertisingWithEnhancements`:
the payload when present, otherwise the descriptor object. -/
def advMessage (config : AdvertisingConfig) (now : Int) : AdvMessage :=
  match config.payload with
  | some p => AdvMessage.payloadMsg p
  | none => AdvMessage.descriptor config.deviceName config.serviceUUID now

/-- `startAdvertisingWithEnhancements`.  Parameters added by the shallow
embedding: `platform` stands for `Platform.OS`, `now` for `Date.now()`.
Returns the result, the successor state, and the event trace.  Note the
source order inside the `try`: configuration validation comes first, the
platform check second, then serialization and the driver call. -/
def startAdvertisingWithEnhancements (platform : String) (advertiser : Advertiser)
    (config : AdvertisingConfig) (sessionId : String) (now : Int)
    (st : TrackerState) : OpResult × TrackerState × List Event :=
  let startTime := now
  let validation := validateAdvertisingConfig config
  if !validation.valid then
    let error := "Invalid advertising configuration: " ++
      String.intercalate ", " validation.errors
    (⟨false, some error⟩,
      recordMetrics st sessionId startTime false (some error) none, [])
  else if platform ≠ "android" then
    let error := "BLE advertising is only supported on Android"
    (⟨false, some error⟩,
      recordMetrics st sessionId startTime false (some error) none, [])
  else
    let advertisingMessage := advMessage config now
    match advertiser.startBroadcast advertisingMessage with
    | DriverResult.ok true =>
      (⟨true, none⟩,
        recordMetrics st sessionId startTime true none (some config.payload.isSome),
        [Event.startBroadcastCall advertisingMessage])
    | DriverResult.ok false =>
      let error := "Failed to start advertising - no result from startBroadcast"
      (⟨false, some error⟩,
        recordMetrics st sessionId startTime false (some error) none,
        [Event.startBroadcastCall advertisingMessage])
    | DriverResult.thrown e =>
      (⟨false, some e⟩,
        recordMetrics st sessionId startTime false (some e) none,
        [Event.startBroadcastCall advertisingMessage])

/-- `stopAdvertisingWithEnhancements`.  The boolean resolved by
`stopBroadcast` is bound to `result` in the source but never read: when
the promise resolves (either boolean), the metrics record is stamped with
`stopTime`/`duration`, the restart counter is deleted, and
`\x7bsuccess: true\x7d` is returned.  When it throws, control jumps to the
`catch` before the delete, so the state is left untouched and
`\x7bsuccess: false, error\x7d` is returned. -/
def stopAdvertisingWithEnhancements (advertiser : Advertiser) (sessionId : String)
    (now : Int) (st : TrackerState) : OpResult × TrackerState × List Event :=
  match advertiser.stopBroadcast with
  | DriverResult.thrown e => (⟨false, some e⟩, st, [Event.stopBroadcastCall])
  | DriverResult.ok _result =>
    let st' := updateRecord st sessionId fun m =>
      { m with stopTime := some now, duration := now - m.startTime }
    let st'' := { st' with restartAttempts := eraseA st'.restartAttempts sessionId }
    (⟨true, none⟩, st'', [Event.stopBroadcastCall])

/-- `restartAdvertisingIfNeeded`: reads the attempt count (`|| 0`), aborts
at the maximum, otherwise increments the counter, waits `restartDelay`,
re-invokes `startAdvertisingWithEnhancements`, bumps the session's
`restartCount` on success, and returns the retried start's success. -/
def restartAdvertisingIfNeeded (platform : String) (advertiser : Advertiser)
    (config : AdvertisingConfig) (sessionId : String) (now : Int)
    (st : TrackerState) : Bool × TrackerState × List Event :=
  let attempts := (lookupA st.restartAttempts sessionId).getD 0
  if attempts ≥ maxRestartAttempts then
    (false, st, [])
  else
    let st1 := { st with restartAttempts := setA st.restartAttempts sessionId (attempts + 1) }
    let (result, st2, evs) :=
      startAdvertisingWithEnhancements platform advertiser config sessionId now st1
    let st3 := if result.success then updateRecord st2 sessionId
      (fun m => { m with restartCount := m.restartCount + 1 }) else st2
    (result.success, st3, Event.wait restartDelay :: evs)

/-- `getAdvertisingMetrics`: dereference the session's record. -/
def getAdvertisingMetrics (st : TrackerState) (sessionId : String) :
    Option AdvertisingMetrics :=
  (lookupA st.metrics sessionId).bind (lookupA st.heap)

/-- `getAllAdvertisingMetrics`: `new Map(this.metrics)` — a fresh map with
the same key → object-reference entries (a shallow copy: the records
themselves are shared). -/
def getAllAdvertisingMetrics (st : TrackerState) : List (String × Nat) :=
  st.metrics

/-- Reading an entry of a previously returned snapshot map: the snapshot
fixes the reference, the record is whatever that reference holds in the
current heap. -/
def snapshotGet (snapshot : List (String × Nat))
    (heap : List (Nat × AdvertisingMetrics)) (sessionId : String) :
    Option AdvertisingMetrics :=
  (lookupA snapshot sessionId).bind (lookupA heap)

/-- `clearMetrics`: delete the session's map entries (the record object
itself is unreachable from the live map afterwards but still referenced by
any snapshot). -/
def clearMetrics (st : TrackerState) (sessionId : String) : TrackerState :=
  { st with
      metrics := eraseA st.metrics sessionId
      restartAttempts := eraseA st.restartAttempts sessionId }

/-- `Array.from(this.metrics.values())`: the records in map insertion
order, dereferenced through the heap. -/
def metricsValues (st : TrackerState) : List AdvertisingMetrics :=
  st.metrics.filterMap (fun p => lookupA st.heap p.2)

/-- Result of `getAdvertisingStatistics`.  `averageDuration` is a JS
number arising from exact integer sums divided by a count; it is modelled
as a rational. -/
structure AdvertisingStatistics where
  totalSessions : Nat
  successfulSessions : Nat
  failedSessions : Nat
  averageDuration : Rat
  totalRestarts : Nat
  payloadTransmissions : Nat
deriving DecidableEq, Repr

/-- `getAdvertisingStatistics`: aggregates over the current records;
the average is guarded by `sessions.length > 0` (0 otherwise).  The filter
`s => s.payloadTransmitted` keeps exactly the records whose optional flag
is present and true. -/
def getAdvertisingStatistics (st : TrackerState) : AdvertisingStatistics :=
  let sessions := metricsValues st
  let successfulSessions := sessions.filter (fun s => s.success)
  let failedSessions := sessions.filter (fun s => !s.success)
  let totalRestarts := sessions.foldl (fun sum s => sum + s.restartCount) 0
  let payloadTransmissions :=
    (sessions.filter (fun s => s.payloadTransmitted = some true)).length
  let averageDuration : Rat :=
    if sessions.length > 0 then
      (((sessions.foldl (fun sum s => sum + s.duration) 0 : Int) : Rat)) /
        (sessions.length : Rat)
    else 0
  { totalSessions := sessions.length
    successfulSessions := successfulSessions.length
    failedSessions := failedSessions.length
    averageDuration := averageDuration
    totalRestarts := totalRestarts
    payloadTransmissions := payloadTransmissions }

/-! ## Concrete fixtures used by witnesses and counterexamples -/

/-- A well-formed service UUID (the one used in the spec's scenario). -/
def sampleUUID : String := "123e4567-e89b-12d3-a456-426614174000"

/-- A configuration that passes every validation rule. -/
def validConfig : AdvertisingConfig :=
  { deviceName := "Alice-Phone"
    serviceUUID := sampleUUID
    manufacturerData := []
    txPowerLevel := -12
    advertiseMode := 0
    includeDeviceName := true
    includeTxPowerLevel := true
    connectable := true
    timeout := some 60000
    interval := some 100
    payload := none }

/-- `validConfig` with the device name emptied: exactly one rule violated. -/
def invalidConfig : AdvertisingConfig := { validConfig with deviceName := "" }

/-- A driver whose calls all resolve `true`. -/
def alwaysOkDriver : Advertiser :=
  { startBroadcast := fun _ => DriverResult.ok true
    stopBroadcast := DriverResult.ok true
    isAdvertising := false }

/-- A driver whose calls all resolve `false`. -/
def alwaysFalseDriver : Advertiser :=
  { startBroadcast := fun _ => DriverResult.ok false
    stopBroadcast := DriverResult.ok false
    isAdvertising := false }

/-- A driver whose `stopBroadcast` rejects. -/
def throwingStopDriver : Advertiser :=
  { startBroadcast := fun _ => DriverResult.ok true
    stopBroadcast := DriverResult.thrown "boom"
    isAdvertising := false }

/-- A configuration violating two rules at once: empty device name and
out-of-range transmit power. -/
def doublyInvalidConfig : AdvertisingConfig :=
  { validConfig with deviceName := "", txPowerLevel := 20 }

/-- `validConfig` with an explicit zero interval. -/
def zeroIntervalConfig : AdvertisingConfig := { validConfig with interval := some 0 }

/-- A state holding a restart counter of 2 for session "s1". -/
def stWithAttempts : TrackerState := { initialState with restartAttempts := [("s1", 2)] }

/-- A state holding an exhausted restart counter for session "s1". -/
def stWithMaxAttempts : TrackerState := { initialState with restartAttempts := [("s1", 3)] }

/-- The state after one successful recorded start for session "s1". -/
def stAfterRecord : TrackerState := recordMetrics initialState "s1" 0 true none (some true)

/-- The restart-attempt count the controller reads for a session:
`this.restartAttempts.get(sessionId) || 0`. -/
def attemptsOf (st : TrackerState) (sessionId : String) : Nat :=
  (lookupA st.restartAttempts sessionId).getD 0

/-- `n` successive calls of `restartAdvertisingIfNeeded` on the same
session, threading the state and concatenating the event traces. -/
def iterRestart (platform : String) (adv : Advertiser) (config : AdvertisingConfig)
    (sid : String) (now : Int) : Nat → TrackerState → TrackerState × List Event
  | 0, st => (st, [])
  | n + 1, st =>
    let step := restartAdvertisingIfNeeded platform adv config sid now st
    let rest := iterRestart platform adv config sid now n step.2.1
    (rest.1, step.2.2 ++ rest.2)

/-- Number of driver `startBroadcast` invocations in an event trace. -/
def countStartCalls (evs : List Event) : Nat :=
  (evs.filter fun e => match e with
    | Event.startBroadcastCall _ => true
    | _ => false).length

/-! ## The UUID shape, stated the way the spec states it -/

/-- A lowercase or uppercase hexadecimal digit. -/
def IsSpecHexDigit (c : Char) : Prop :=
  ('0' ≤ c ∧ c ≤ '9') ∨ ('a' ≤ c ∧ c ≤ 'f') ∨ ('A' ≤ c ∧ c ≤ 'F')

/-- A group of exactly `n` hex digits. -/
def HexGroup (g : List Char) (n : Nat) : Prop :=
  g.length = n ∧ ∀ c ∈ g, IsSpecHexDigit c

/-- The 8-4-4-4-12 hex-group UUID shape, written from the spec's words:
five hyphen-separated groups of hex digits with lengths 8, 4, 4, 4, 12. -/
def UUIDShape (s : String) : Prop :=
  ∃ g1 g2 g3 g4 g5 : List Char,
    HexGroup g1 8 ∧ HexGroup g2 4 ∧ HexGroup g3 4 ∧ HexGroup g4 4 ∧ HexGroup g5 12 ∧
    s.data = g1 ++ '-' :: (g2 ++ '-' :: (g3 ++ '-' :: (g4 ++ '-' :: g5)))

/-! ## Association-list lemmas -/

theorem lookupA_setA_self {α β : Type} [DecidableEq α] (l : List (α × β)) (k : α) (v : β) :
    lookupA (setA l k v) k = some v := by
  induction l with
  | nil => simp [setA, lookupA]
  | cons p rest ih =>
    by_cases h : p.1 = k
    · simp [setA, h, lookupA]
    · simp [setA, h, lookupA, ih]

theorem lookupA_setA_ne {α β : Type} [DecidableEq α] (l : List (α × β)) (k k' : α) (v : β)
    (h : k ≠ k') : lookupA (setA l k v) k' = lookupA l k' := by
  induction l with
  | nil => simp [setA, lookupA, h]
  | cons p rest ih =>
    by_cases hp : p.1 = k
    · simp [setA, hp, lookupA, h]
    · simp [setA, hp, lookupA, ih]

theorem lookupA_eraseA_self {α β : Type} [DecidableEq α] (l : List (α × β)) (k : α) :
    lookupA (eraseA l k) k = none := by
  induction l with
  | nil => simp [eraseA, lookupA]
  | cons p rest ih =>
    by_cases h : p.1 = k
    · simp [eraseA, h, ih]
    · simp [eraseA, h, lookupA, ih]

theorem lookupA_eraseA_ne {α β : Type} [DecidableEq α] (l : List (α × β)) (k k' : α)
    (h : k ≠ k') : lookupA (eraseA l k) k' = lookupA l k' := by
  induction l with
  | nil => simp [eraseA, lookupA]
  | cons p rest ih =>
    by_cases hp : p.1 = k
    · have hpk' : p.1 ≠ k' := by rw [hp]; exact h
      simp [eraseA, hp, lookupA, hpk', ih, h]
    · by_cases hk' : p.1 = k'
      · simp [eraseA, hp, lookupA, hk', ih, Ne.symm h]
      · simp [eraseA, hp, lookupA, hk', ih]

theorem isHexDigit_iff (c : Char) : isHexDigit c = true ↔ IsSpecHexDigit c := by
  simp [isHexDigit, IsSpecHexDigit, Bool.or_eq_true, Bool.and_eq_true,
    decide_eq_true_eq, or_assoc]

theorem matchDash_eq_some_iff (cs rest : List Char) :
    matchDash cs = some rest ↔ cs = '-' :: rest := by
  cases cs with
  | nil => simp [matchDash]
  | cons c cs' =>
    by_cases h : c = '-'
    · subst h; simp [matchDash]
    · simp [matchDash, h]

theorem matchHex_eq_some_iff (n : Nat) (cs rest : List Char) :
    matchHex n cs = some rest ↔
      ∃ g : List Char, g.length = n ∧ (∀ c ∈ g, isHexDigit c = true) ∧ cs = g ++ rest := by
  induction n generalizing cs with
  | zero =>
    simp only [matchHex, Option.some.injEq]
    constructor
    · rintro rfl
      exact ⟨[], rfl, by simp, by simp⟩
    · rintro ⟨g, hg, -, hcs⟩
      rw [List.length_eq_zero] at hg
      subst hg
      simpa using hcs
  | succ n ih =>
    cases cs with
    | nil =>
      constructor
      · intro h'
        simp [matchHex] at h'
      · rintro ⟨g, hg, -, hcs⟩
        rcases List.append_eq_nil.mp hcs.symm with ⟨rfl, -⟩
        simp at hg
    | cons c cs' =>
      by_cases h : isHexDigit c
      · rw [show matchHex (n + 1) (c :: cs') = matchHex n cs' from by simp [matchHex, h]]
        rw [ih]
        constructor
        · rintro ⟨g, hg, hhex, rfl⟩
          refine ⟨c :: g, by simp [hg], ?_, by simp⟩
          intro x hx
          rcases List.mem_cons.mp hx with rfl | hx
          · exact h
          · exact hhex x hx
        · rintro ⟨g, hg, hhex, hcs⟩
          cases g with
          | nil => simp at hg
          | cons c0 g' =>
            rw [List.cons_append] at hcs
            injection hcs with h1 h2
            subst h1
            exact ⟨g', by simpa using hg,
              fun x hx => hhex x (List.mem_cons_of_mem _ hx), h2⟩
      · constructor
        · intro h'
          simp [matchHex, h] at h'
        · rintro ⟨g, hg, hhex, hcs⟩
          cases g with
          | nil => simp at hg
          | cons c0 g' =>
            rw [List.cons_append] at hcs
            injection hcs with h1 h2
            subst h1
            exact absurd (hhex _ (by simp)) h

/-! ## Helper lemmas about the validation error list -/

theorem mem_ite_singleton {α : Type} {a x : α} {p : Prop} [Decidable p] :
    a ∈ (if p then [x] else []) ↔ p ∧ a = x := by
  split_ifs with h <;> simp [h]

theorem two_le_length_of_two_mem {α : Type} {a b : α} {l : List α} (hab : a ≠ b)
    (ha : a ∈ l) (hb : b ∈ l) : 2 ≤ l.length := by
  obtain ⟨s, t, rfl⟩ := List.append_of_mem ha
  rw [List.mem_append, List.mem_cons] at hb
  rcases hb with h | h | h
  · have := List.length_pos_of_mem h
    simp only [List.length_append, List.length_cons]
    omega
  · exact absurd h.symm hab
  · have := List.length_pos_of_mem h
    simp only [List.length_append, List.length_cons]
    omega

theorem valid_iff_errors_nil (c : AdvertisingConfig) :
    (validateAdvertisingConfig c).valid = true ↔ (validateAdvertisingConfig c).errors = [] := by
  obtain ⟨dn, su, md, tx, am, b1, b2, b3, tmo, iv, pl⟩ := c
  simp [validateAdvertisingConfig, List.isEmpty_iff]

theorem mem_deviceName_error (c : AdvertisingConfig) :
    "Device name is required" ∈ (validateAdvertisingConfig c).errors ↔ c.deviceName = "" := by
  obtain ⟨dn, su, md, tx, am, b1, b2, b3, tmo, iv, pl⟩ := c
  cases iv <;> cases pl <;>
    simp [validateAdvertisingConfig, mem_ite_singleton, List.mem_append]

theorem mem_txPower_error (c : AdvertisingConfig) :
    "TX power level must be between -30 and 10 dBm" ∈ (validateAdvertisingConfig c).errors ↔
      (c.txPowerLevel < -30 ∨ 10 < c.txPowerLevel) := by
  obtain ⟨dn, su, md, tx, am, b1, b2, b3, tmo, iv, pl⟩ := c
  cases iv <;> cases pl <;>
    simp [validateAdvertisingConfig, mem_ite_singleton, List.mem_append]

theorem mem_uuid_format_error (c : AdvertisingConfig) :
    "Invalid service UUID format" ∈ (validateAdvertisingConfig c).errors ↔
      isValidUUID c.serviceUUID = false := by
  obtain ⟨dn, su, md, tx, am, b1, b2, b3, tmo, iv, pl⟩ := c
  cases iv <;> cases pl <;>
    simp [validateAdvertisingConfig, mem_ite_singleton, List.mem_append]

theorem mem_interval_error (c : AdvertisingConfig) :
    "Advertising interval must be between 20ms and 10240ms" ∈ (validateAdvertisingConfig c).errors ↔
      (∃ i, c.interval = some i ∧ i ≠ 0 ∧ (i < 20 ∨ 10240 < i)) := by
  obtain ⟨dn, su, md, tx, am, b1, b2, b3, tmo, iv, pl⟩ := c
  cases iv <;> cases pl <;>
    simp [validateAdvertisingConfig, mem_ite_singleton, List.mem_append]

/-! ## Equivalence of the source regex with the spec's UUID shape -/

theorem isValidUUID_iff_shape (s : String) : isValidUUID s = true ↔ UUIDShape s := by
  simp only [isValidUUID, decide_eq_true_eq]
  constructor
  · intro h
    obtain ⟨r8, hp8, h9⟩ := Option.bind_eq_some.mp h
    obtain ⟨r7, hp7, h8⟩ := Option.bind_eq_some.mp hp8
    obtain ⟨r6, hp6, h7⟩ := Option.bind_eq_some.mp hp7
    obtain ⟨r5, hp5, h6⟩ := Option.bind_eq_some.mp hp6
    obtain ⟨r4, hp4, h5⟩ := Option.bind_eq_some.mp hp5
    obtain ⟨r3, hp3, h4⟩ := Option.bind_eq_some.mp hp4
    obtain ⟨r2, hp2, h3⟩ := Option.bind_eq_some.mp hp3
    obtain ⟨r1, h1, h2⟩ := Option.bind_eq_some.mp hp2
    rw [matchDash_eq_some_iff _ _] at h2 h4 h6 h8
    obtain ⟨g1, hl1, hh1, he1⟩ := (matchHex_eq_some_iff _ _ _).mp h1
    obtain ⟨g2, hl2, hh2, he2⟩ := (matchHex_eq_some_iff _ _ _).mp h3
    obtain ⟨g3, hl3, hh3, he3⟩ := (matchHex_eq_some_iff _ _ _).mp h5
    obtain ⟨g4, hl4, hh4, he4⟩ := (matchHex_eq_some_iff _ _ _).mp h7
    obtain ⟨g5, hl5, hh5, he5⟩ := (matchHex_eq_some_iff _ _ _).mp h9
    refine ⟨g1, g2, g3, g4, g5,
      ⟨hl1, fun c hc => (isHexDigit_iff c).mp (hh1 c hc)⟩,
      ⟨hl2, fun c hc => (isHexDigit_iff c).mp (hh2 c hc)⟩,
      ⟨hl3, fun c hc => (isHexDigit_iff c).mp (hh3 c hc)⟩,
      ⟨hl4, fun c hc => (isHexDigit_iff c).mp (hh4 c hc)⟩,
      ⟨hl5, fun c hc => (isHexDigit_iff c).mp (hh5 c hc)⟩, ?_⟩
    rw [he1, h2, he2, h4, he3, h6, he4, h8, he5]
    simp
  · rintro ⟨g1, g2, g3, g4, g5, hg1, hg2, hg3, hg4, hg5, hdata⟩
    have e1 : matchHex 8 s.data =
        some ('-' :: (g2 ++ '-' :: (g3 ++ '-' :: (g4 ++ '-' :: g5)))) :=
      (matchHex_eq_some_iff _ _ _).mpr
        ⟨g1, hg1.1, fun c hc => (isHexDigit_iff c).mpr (hg1.2 c hc), hdata⟩
    have e3 : matchHex 4 (g2 ++ '-' :: (g3 ++ '-' :: (g4 ++ '-' :: g5))) =
        some ('-' :: (g3 ++ '-' :: (g4 ++ '-' :: g5))) :=
      (matchHex_eq_some_iff _ _ _).mpr
        ⟨g2, hg2.1, fun c hc => (isHexDigit_iff c).mpr (hg2.2 c hc), rfl⟩
    have e5 : matchHex 4 (g3 ++ '-' :: (g4 ++ '-' :: g5)) =
        some ('-' :: (g4 ++ '-' :: g5)) :=
      (matchHex_eq_some_iff _ _ _).mpr
        ⟨g3, hg3.1, fun c hc => (isHexDigit_iff c).mpr (hg3.2 c hc), rfl⟩
    have e7 : matchHex 4 (g4 ++ '-' :: g5) = some ('-' :: g5) :=
      (matchHex_eq_some_iff _ _ _).mpr
        ⟨g4, hg4.1, fun c hc => (isHexDigit_iff c).mpr (hg4.2 c hc), rfl⟩
    have e9 : matchHex 12 g5 = some [] :=
      (matchHex_eq_some_iff _ _ _).mpr
        ⟨g5, hg5.1, fun c hc => (isHexDigit_iff c).mpr (hg5.2 c hc), by simp⟩
    simp [e1, e3, e5, e7, e9, matchDash]

/-! ## Preservation lemmas for the stateful operations -/

theorem recordMetrics_restartAttempts (st : TrackerState) (sid : String) (t : Int)
    (s : Bool) (e : Option String) (p : Option Bool) :
    (recordMetrics st sid t s e p).restartAttempts = st.restartAttempts := rfl

theorem updateRecord_restartAttempts (st : TrackerState) (sid : String)
    (f : AdvertisingMetrics → AdvertisingMetrics) :
    (updateRecord st sid f).restartAttempts = st.restartAttempts := by
  unfold updateRecord
  cases h1 : lookupA st.metrics sid with
  | none => rfl
  | some r => cases h2 : lookupA st.heap r <;> simp [h2]

theorem updateRecord_metrics (st : TrackerState) (sid : String)
    (f : AdvertisingMetrics → AdvertisingMetrics) :
    (updateRecord st sid f).metrics = st.metrics := by
  unfold updateRecord
  cases h1 : lookupA st.metrics sid with
  | none => rfl
  | some r => cases h2 : lookupA st.heap r <;> simp [h2]

theorem start_restartAttempts (platform : String) (adv : Advertiser)
    (config : AdvertisingConfig) (sid : String) (now : Int) (st : TrackerState) :
    (startAdvertisingWithEnhancements platform adv config sid now st).2.1.restartAttempts =
      st.restartAttempts := by
  simp only [startAdvertisingWithEnhancements]
  split_ifs
  · rfl
  · rfl
  · cases hb : adv.startBroadcast (advMessage config now) with
    | ok b => cases b <;> simp [hb, recordMetrics_restartAttempts]
    | thrown e => simp [hb, recordMetrics_restartAttempts]

/-- A start that reaches an always-`false` driver: the exact failed
result, recorded state and single driver invocation. -/
theorem start_always_false (adv : Advertiser) (config : AdvertisingConfig)
    (sid : String) (now : Int) (st : TrackerState)
    (hfail : ∀ m, adv.startBroadcast m = DriverResult.ok false)
    (hvalid : (validateAdvertisingConfig config).valid = true) :
    startAdvertisingWithEnhancements "android" adv config sid now st =
      (⟨false, some "Failed to start advertising - no result from startBroadcast"⟩,
       recordMetrics st sid now false
         (some "Failed to start advertising - no result from startBroadcast") none,
       [Event.startBroadcastCall (advMessage config now)]) := by
  simp [startAdvertisingWithEnhancements, hvalid, hfail]

/-- `restartAdvertisingIfNeeded` with an exhausted budget: a no-op
returning `false`. -/
theorem restart_abort (platform : String) (adv : Advertiser) (config : AdvertisingConfig)
    (sid : String) (now : Int) (st : TrackerState)
    (h : maxRestartAttempts ≤ attemptsOf st sid) :
    restartAdvertisingIfNeeded platform adv config sid now st = (false, st, []) := by
  simp [restartAdvertisingIfNeeded, attemptsOf] at h ⊢
  simp [h]

/-- One failing restart attempt under budget: returns `false`, bumps the
counter, and performs exactly the wait followed by one driver call. -/
theorem restart_fail_step (adv : Advertiser) (config : AdvertisingConfig)
    (sid : String) (now : Int) (st : TrackerState)
    (hfail : ∀ m, adv.startBroadcast m = DriverResult.ok false)
    (hvalid : (validateAdvertisingConfig config).valid = true)
    (h : attemptsOf st sid < maxRestartAttempts) :
    restartAdvertisingIfNeeded "android" adv config sid now st =
      (false,
       recordMetrics
         { st with restartAttempts := setA st.restartAttempts sid (attemptsOf st sid + 1) }
         sid now false (some "Failed to start advertising - no result from startBroadcast") none,
       [Event.wait restartDelay, Event.startBroadcastCall (advMessage config now)]) := by
  have hnot : ¬ maxRestartAttempts ≤ attemptsOf st sid := by omega
  simp only [restartAdvertisingIfNeeded, attemptsOf] at *
  rw [if_neg (by simpa using hnot)]
  rw [start_always_false adv config sid now _ hfail hvalid]
  simp

theorem countStartCalls_append (a b : List Event) :
    countStartCalls (a ++ b) = countStartCalls a + countStartCalls b := by
  simp [countStartCalls, List.filter_append]

/-- Driver-invocation count of `n` failing restart attempts: bounded by
what is left of the budget. -/
theorem iterRestart_count (adv : Advertiser) (config : AdvertisingConfig)
    (sid : String) (now : Int)
    (hfail : ∀ m, adv.startBroadcast m = DriverResult.ok false)
    (hvalid : (validateAdvertisingConfig config).valid = true) :
    ∀ (n : Nat) (st : TrackerState),
      countStartCalls (iterRestart "android" adv config sid now n st).2 =
        min n (maxRestartAttempts - attemptsOf st sid) := by
  intro n
  induction n with
  | zero => intro st; simp [iterRestart, countStartCalls]
  | succ n ih =>
    intro st
    by_cases h : maxRestartAttempts ≤ attemptsOf st sid
    · rw [show iterRestart "android" adv config sid now (n + 1) st =
          (let step := restartAdvertisingIfNeeded "android" adv config sid now st
           let rest := iterRestart "android" adv config sid now n step.2.1
           (rest.1, step.2.2 ++ rest.2)) from rfl]
      rw [restart_abort _ _ _ _ _ _ h]
      simp only [countStartCalls_append, ih]
      have : maxRestartAttempts - attemptsOf st sid = 0 := by omega
      simp [this, countStartCalls]
    · have hlt : attemptsOf st sid < maxRestartAttempts := by omega
      rw [show iterRestart "android" adv config sid now (n + 1) st =
          (let step := restartAdvertisingIfNeeded "android" adv config sid now st
           let rest := iterRestart "android" adv config sid now n step.2.1
           (rest.1, step.2.2 ++ rest.2)) from rfl]
      rw [restart_fail_step adv config sid now st hfail hvalid hlt]
      simp only [countStartCalls_append, ih]
      have hnew : attemptsOf
          (recordMetrics
            { st with restartAttempts := setA st.restartAttempts sid (attemptsOf st sid + 1) }
            sid now false (some "Failed to start advertising - no result from startBroadcast") none)
          sid = attemptsOf st sid + 1 := by
        simp [attemptsOf, recordMetrics_restartAttempts, lookupA_setA_self]
      rw [hnew]
      have h1 : countStartCalls
          [Event.wait restartDelay, Event.startBroadcastCall (advMessage config now)] = 1 := rfl
      rw [h1]
      omega

/-! ## Claim C1 -/

/-- Counterexample to claim C1: a driver whose `stopBroadcast` resolves to
`false` still yields a result with `success = true` — the resolved boolean
is ignored, so a non-true result is not treated as a failure. -/
theorem stop_false_result_reported_success :
    (stopAdvertisingWithEnhancements alwaysFalseDriver "s1" 0 initialState).1 =
      { success := true, error := none } := by
  decide

/-- Claim C1 as amended: for every session id, stop ignores the boolean
resolved by `driver.stopBroadcast()` — a `false` result is treated exactly
like `true` and the returned result has `success = true` with no error;
only a thrown error yields `success = false`, carrying the thrown
message. -/
theorem stop_result_handling (adv : Advertiser) (sid : String) (now : Int)
    (st : TrackerState) :
    (∀ b, adv.stopBroadcast = DriverResult.ok b →
      (stopAdvertisingWithEnhancements adv sid now st).1 =
        { success := true, error := none }) ∧
    (∀ e, adv.stopBroadcast = DriverResult.thrown e →
      (stopAdvertisingWithEnhancements adv sid now st).1 =
        { success := false, error := some e }) := by
  constructor
  · intro b h
    simp [stopAdvertisingWithEnhancements, h]
  · intro e h
    simp [stopAdvertisingWithEnhancements, h]

/-- Witness for `stop_result_handling` at concrete inputs. -/
theorem stop_result_handling_witness :
    (stopAdvertisingWithEnhancements alwaysFalseDriver "w1" 7 initialState).1 =
      { success := true, error := none } ∧
    (stopAdvertisingWithEnhancements throwingStopDriver "w1" 7 initialState).1 =
      { success := false, error := some "boom" } :=
  ⟨(stop_result_handling alwaysFalseDriver "w1" 7 initialState).1 false rfl,
   (stop_result_handling throwingStopDriver "w1" 7 initialState).2 "boom" rfl⟩

/-! ## Claim C2 -/

/-- Counterexample to claim C2: on a non-Android platform with an invalid
config, the returned error is the configuration error, not the platform
error — validation (step 1 in the code) runs before the platform check
(step 2). -/
theorem start_config_error_precedes_platform_error :
    (startAdvertisingWithEnhancements "ios" alwaysOkDriver invalidConfig "s1" 0
        initialState).1.error =
      some "Invalid advertising configuration: Device name is required" ∧
    (startAdvertisingWithEnhancements "ios" alwaysOkDriver invalidConfig "s1" 0
        initialState).1.error ≠
      some "BLE advertising is only supported on Android" := by
  constructor <;> decide

/-- Claim C2 as amended: config validation is step 1 and the platform
check step 2.  An invalid config short-circuits with the aggregated config
error (no driver call, even off-platform); a valid config on a
non-Android platform records a failure and returns the platform error
immediately, with no driver invocation (empty event trace). -/
theorem start_platform_precondition (platform : String) (adv : Advertiser)
    (config : AdvertisingConfig) (sid : String) (now : Int) (st : TrackerState) :
    ((validateAdvertisingConfig config).valid = false →
      startAdvertisingWithEnhancements platform adv config sid now st =
        ({ success := false, error := some ("Invalid advertising configuration: " ++
            String.intercalate ", " (validateAdvertisingConfig config).errors) },
         recordMetrics st sid now false (some ("Invalid advertising configuration: " ++
            String.intercalate ", " (validateAdvertisingConfig config).errors)) none,
         [])) ∧
    ((validateAdvertisingConfig config).valid = true → platform ≠ "android" →
      startAdvertisingWithEnhancements platform adv config sid now st =
        ({ success := false, error := some "BLE advertising is only supported on Android" },
         recordMetrics st sid now false
           (some "BLE advertising is only supported on Android") none,
         [])) := by
  constructor
  · intro h
    simp [startAdvertisingWithEnhancements, h]
  · intro h hp
    simp [startAdvertisingWithEnhancements, h, hp]

/-- Witness for `start_platform_precondition` at concrete inputs. -/
theorem start_platform_precondition_witness :
    startAdvertisingWithEnhancements "ios" alwaysOkDriver invalidConfig "s1" 0 initialState =
      ({ success := false, error := some ("Invalid advertising configuration: " ++
          String.intercalate ", " (validateAdvertisingConfig invalidConfig).errors) },
       recordMetrics initialState "s1" 0 false (some ("Invalid advertising configuration: " ++
          String.intercalate ", " (validateAdvertisingConfig invalidConfig).errors)) none,
       []) ∧
    startAdvertisingWithEnhancements "ios" alwaysOkDriver validConfig "s1" 0 initialState =
      ({ success := false, error := some "BLE advertising is only supported on Android" },
       recordMetrics initialState "s1" 0 false
         (some "BLE advertising is only supported on Android") none,
       []) :=
  ⟨(start_platform_precondition "ios" alwaysOkDriver invalidConfig "s1" 0 initialState).1
      (by decide),
   (start_platform_precondition "ios" alwaysOkDriver validConfig "s1" 0 initialState).2
      (by decide) (by decide)⟩

/-! ## Claim C3 -/

/-- Counterexample to claim C3: when `stopBroadcast` throws, the restart
counter is NOT cleared — the `delete` sits after the `await` inside the
`try`, so the thrown error skips it. -/
theorem stop_throw_leaves_restart_counter :
    lookupA (stopAdvertisingWithEnhancements throwingStopDriver "s1" 0
        stWithAttempts).2.1.restartAttempts "s1" = some 2 := by
  decide

/-- Claim C3 as amended: stop clears the restart-attempt counter only when
`stopBroadcast` resolves (with either boolean); when it throws, the whole
state — the counter included — is left unchanged, and the error is
converted into a failed result value rather than propagated. -/
theorem stop_restart_counter_clearing (adv : Advertiser) (sid : String) (now : Int)
    (st : TrackerState) :
    (∀ b, adv.stopBroadcast = DriverResult.ok b →
      lookupA (stopAdvertisingWithEnhancements adv sid now st).2.1.restartAttempts sid =
        none) ∧
    (∀ e, adv.stopBroadcast = DriverResult.thrown e →
      stopAdvertisingWithEnhancements adv sid now st =
        ({ success := false, error := some e }, st, [Event.stopBroadcastCall])) := by
  constructor
  · intro b h
    simp [stopAdvertisingWithEnhancements, h, lookupA_eraseA_self]
  · intro e h
    simp [stopAdvertisingWithEnhancements, h]

/-- Witness for `stop_restart_counter_clearing` at concrete inputs. -/
theorem stop_restart_counter_clearing_witness :
    lookupA (stopAdvertisingWithEnhancements alwaysOkDriver "s1" 0
        stWithAttempts).2.1.restartAttempts "s1" = none ∧
    stopAdvertisingWithEnhancements throwingStopDriver "s1" 0 stWithAttempts =
      ({ success := false, error := some "boom" }, stWithAttempts,
       [Event.stopBroadcastCall]) :=
  ⟨(stop_restart_counter_clearing alwaysOkDriver "s1" 0 stWithAttempts).1 true rfl,
   (stop_restart_counter_clearing throwingStopDriver "s1" 0 stWithAttempts).2 "boom" rfl⟩

/-! ## Claim C4 -/

/-- Counterexample to claim C4: a snapshot returned by `getAll` before a
stop call observes the stop's in-place mutation — the same record read
through the old snapshot shows `stopTime`/`duration` updated, because
`new Map(this.metrics)` copies only the key → reference entries. -/
theorem getAll_snapshot_observes_mutation :
    snapshotGet (getAllAdvertisingMetrics stAfterRecord)
        (stopAdvertisingWithEnhancements alwaysOkDriver "s1" 5 stAfterRecord).2.1.heap
        "s1" =
      some { startTime := 0, stopTime := some 5, duration := 5, success := true,
             errorCount := 0, restartCount := 0, payloadTransmitted := some true } ∧
    snapshotGet (getAllAdvertisingMetrics stAfterRecord) stAfterRecord.heap "s1" =
      some { startTime := 0, stopTime := none, duration := 0, success := true,
             errorCount := 0, restartCount := 0, payloadTransmitted := some true } := by
  constructor <;> decide

/-- Claim C4 as amended: the map returned by `getAll` is a shallow
point-in-time copy.  Entry-level changes after the call (removing a
session via `clearMetrics`) are not observable through it, but in-place
mutations of a shared record — stop setting `stopTime`/`duration` — ARE
observable through a previously returned snapshot. -/
theorem getAll_snapshot_shallow (st : TrackerState) (sid : String) (r : Nat)
    (m : AdvertisingMetrics) (adv : Advertiser) (now : Int)
    (h1 : lookupA st.metrics sid = some r) (h2 : lookupA st.heap r = some m) :
    (∀ b, adv.stopBroadcast = DriverResult.ok b →
      snapshotGet (getAllAdvertisingMetrics st)
        (stopAdvertisingWithEnhancements adv sid now st).2.1.heap sid =
        some { m with stopTime := some now, duration := now - m.startTime }) ∧
    (∀ sid', snapshotGet (getAllAdvertisingMetrics st) (clearMetrics st sid').heap sid =
      some m) := by
  constructor
  · intro b hb
    simp [stopAdvertisingWithEnhancements, hb, updateRecord, h1, h2, snapshotGet,
      getAllAdvertisingMetrics, lookupA_setA_self]
  · intro sid'
    simp [clearMetrics, snapshotGet, getAllAdvertisingMetrics, h1, h2]

/-- Witness for `getAll_snapshot_shallow` at concrete inputs. -/
theorem getAll_snapshot_shallow_witness :
    snapshotGet (getAllAdvertisingMetrics stAfterRecord)
        (stopAdvertisingWithEnhancements alwaysOkDriver "s1" 5 stAfterRecord).2.1.heap
        "s1" =
      some { startTime := 0, stopTime := some 5, duration := 5, success := true,
             errorCount := 0, restartCount := 0, payloadTransmitted := some true } ∧
    snapshotGet (getAllAdvertisingMetrics stAfterRecord)
        (clearMetrics stAfterRecord "s1").heap "s1" =
      some { startTime := 0, stopTime := none, duration := 0, success := true,
             errorCount := 0, restartCount := 0, payloadTransmitted := some true } :=
  ⟨(getAll_snapshot_shallow stAfterRecord "s1" 0
      { startTime := 0, stopTime := none, duration := 0, success := true,
        errorCount := 0, restartCount := 0, payloadTransmitted := some true }
      alwaysOkDriver 5 (by decide) (by decide)).1 true rfl,
   (getAll_snapshot_shallow stAfterRecord "s1" 0
      { startTime := 0, stopTime := none, duration := 0, success := true,
        errorCount := 0, restartCount := 0, payloadTransmitted := some true }
      alwaysOkDriver 5 (by decide) (by decide)).2 "s1"⟩

/-! ## Claim C5 -/

/-- Claim C5: `restartAdvertisingIfNeeded` reads the current attempt count
(0 when absent); at the maximum (3) it returns `false` without doing
anything; under the maximum it increments the counter, waits the fixed
2000 ms backoff first, re-invokes start, and returns the retried start's
success.  With a driver that always resolves `false`, every call returns
`false` and over any `n` successive calls starting from a fresh counter at
most `min n 3` driver invocations occur. -/
theorem restartIfNeeded_budget (platform : String) (adv : Advertiser)
    (config : AdvertisingConfig) (sid : String) (now : Int) :
    (∀ st, maxRestartAttempts ≤ attemptsOf st sid →
        restartAdvertisingIfNeeded platform adv config sid now st = (false, st, [])) ∧
    (∀ st, attemptsOf st sid < maxRestartAttempts →
        attemptsOf (restartAdvertisingIfNeeded platform adv config sid now st).2.1 sid =
          attemptsOf st sid + 1 ∧
        (restartAdvertisingIfNeeded platform adv config sid now st).1 =
          (startAdvertisingWithEnhancements platform adv config sid now
            { st with restartAttempts := setA st.restartAttempts sid (attemptsOf st sid + 1) }).1.success ∧
        (restartAdvertisingIfNeeded platform adv config sid now st).2.2 =
          Event.wait restartDelay ::
            (startAdvertisingWithEnhancements platform adv config sid now
              { st with restartAttempts := setA st.restartAttempts sid (attemptsOf st sid + 1) }).2.2) ∧
    ((∀ m, adv.startBroadcast m = DriverResult.ok false) →
      (validateAdvertisingConfig config).valid = true → platform = "android" →
      (∀ st, (restartAdvertisingIfNeeded platform adv config sid now st).1 = false) ∧
      (∀ n st, attemptsOf st sid = 0 →
          countStartCalls (iterRestart platform adv config sid now n st).2 =
            min n maxRestartAttempts)) := by
  refine ⟨fun st h => restart_abort platform adv config sid now st h, ?_, ?_⟩
  · intro st h
    have hnot : ¬ maxRestartAttempts ≤ attemptsOf st sid := by omega
    rcases hstart : startAdvertisingWithEnhancements platform adv config sid now
        { st with restartAttempts := setA st.restartAttempts sid (attemptsOf st sid + 1) }
      with ⟨res, st2, evs⟩
    have hra : st2.restartAttempts = setA st.restartAttempts sid (attemptsOf st sid + 1) := by
      have hp := start_restartAttempts platform adv config sid now
        { st with restartAttempts := setA st.restartAttempts sid (attemptsOf st sid + 1) }
      rw [hstart] at hp
      exact hp
    have hre : restartAdvertisingIfNeeded platform adv config sid now st =
        (res.success,
         if res.success then
           updateRecord st2 sid (fun m => { m with restartCount := m.restartCount + 1 })
         else st2,
         Event.wait restartDelay :: evs) := by
      have hstart' := hstart
      simp only [attemptsOf] at hstart'
      simp only [restartAdvertisingIfNeeded]
      rw [if_neg (by simpa [attemptsOf] using hnot), hstart']
    refine ⟨?_, ?_, ?_⟩
    · rw [hre]
      by_cases hs : res.success <;>
        simp [hs, attemptsOf, updateRecord_restartAttempts, hra, lookupA_setA_self]
    · rw [hre]
    · rw [hre]
  · rintro hfail hvalid rfl
    constructor
    · intro st
      by_cases h : maxRestartAttempts ≤ attemptsOf st sid
      · rw [restart_abort _ _ _ _ _ _ h]
      · rw [restart_fail_step adv config sid now st hfail hvalid (by omega)]
    · intro n st h0
      rw [iterRestart_count adv config sid now hfail hvalid n st, h0]
      simp

/-- Witness for `restartIfNeeded_budget` at concrete inputs. -/
theorem restartIfNeeded_budget_witness :
    restartAdvertisingIfNeeded "android" alwaysFalseDriver validConfig "s1" 0
        stWithMaxAttempts = (false, stWithMaxAttempts, []) ∧
    attemptsOf (restartAdvertisingIfNeeded "android" alwaysFalseDriver validConfig "s1" 0
        stWithAttempts).2.1 "s1" = attemptsOf stWithAttempts "s1" + 1 ∧
    countStartCalls
        (iterRestart "android" alwaysFalseDriver validConfig "s1" 0 5 initialState).2 =
      min 5 maxRestartAttempts :=
  ⟨(restartIfNeeded_budget "android" alwaysFalseDriver validConfig "s1" 0).1
      stWithMaxAttempts (by decide),
   ((restartIfNeeded_budget "android" alwaysFalseDriver validConfig "s1" 0).2.1
      stWithAttempts (by decide)).1,
   ((restartIfNeeded_budget "android" alwaysFalseDriver validConfig "s1" 0).2.2
      (fun m => rfl) (by decide) rfl).2 5 initialState rfl⟩

/-! ## Claim C6 -/

/-- Claim C6: `validateAdvertisingConfig` reports every violated rule, not
just the first — a config with an empty device name AND an out-of-range
transmit power carries both error messages, hence at least two errors —
and `valid` is `true` exactly when the error list is empty.  Purity and
determinism hold inherently: the embedding is a function of the config
alone. -/
theorem validate_reports_all_violations (c : AdvertisingConfig) :
    ((validateAdvertisingConfig c).valid = true ↔
      (validateAdvertisingConfig c).errors = []) ∧
    (c.deviceName = "" → (c.txPowerLevel < -30 ∨ 10 < c.txPowerLevel) →
      "Device name is required" ∈ (validateAdvertisingConfig c).errors ∧
      "TX power level must be between -30 and 10 dBm" ∈
        (validateAdvertisingConfig c).errors ∧
      2 ≤ (validateAdvertisingConfig c).errors.length) := by
  refine ⟨valid_iff_errors_nil c, fun h1 h2 => ?_⟩
  have m1 := (mem_deviceName_error c).mpr h1
  have m2 := (mem_txPower_error c).mpr h2
  exact ⟨m1, m2, two_le_length_of_two_mem (by decide) m1 m2⟩

/-- Witness for `validate_reports_all_violations` at a concrete config. -/
theorem validate_reports_all_violations_witness :
    "Device name is required" ∈ (validateAdvertisingConfig doublyInvalidConfig).errors ∧
    "TX power level must be between -30 and 10 dBm" ∈
      (validateAdvertisingConfig doublyInvalidConfig).errors ∧
    2 ≤ (validateAdvertisingConfig doublyInvalidConfig).errors.length :=
  (validate_reports_all_violations doublyInvalidConfig).2 rfl (Or.inr (by decide))

/-! ## Claim C7 -/

/-- Claim C7: the service-id check accepts a string exactly when it has
the 8-4-4-4-12 hex-group UUID shape with lowercase or uppercase hex
digits, and `validateAdvertisingConfig` reports the invalid-format error
for exactly the strings without that shape. -/
theorem uuid_acceptance (s : String) :
    (isValidUUID s = true ↔ UUIDShape s) ∧
    (∀ c : AdvertisingConfig, c.serviceUUID = s →
      ("Invalid service UUID format" ∈ (validateAdvertisingConfig c).errors ↔
        ¬ UUIDShape s)) := by
  refine ⟨isValidUUID_iff_shape s, fun c hc => ?_⟩
  rw [mem_uuid_format_error, hc]
  constructor
  · intro h hs
    rw [← isValidUUID_iff_shape s] at hs
    rw [h] at hs
    exact Bool.false_ne_true hs
  · intro h
    cases hv : isValidUUID s with
    | false => rfl
    | true => exact absurd ((isValidUUID_iff_shape s).mp hv) h

/-- Witness for `uuid_acceptance` at concrete inputs. -/
theorem uuid_acceptance_witness :
    UUIDShape sampleUUID ∧
    ("Invalid service UUID format" ∈
        (validateAdvertisingConfig { validConfig with serviceUUID := "nope" }).errors ↔
      ¬ UUIDShape "nope") :=
  ⟨(uuid_acceptance sampleUUID).1.mp (by decide),
   (uuid_acceptance "nope").2 { validConfig with serviceUUID := "nope" } rfl⟩

/-! ## Claim C8 -/

/-- Claim C8 evaluated on the code: `createPaymentAdvertisingConfig`
produces the fixed defaults — transmit power −12 dBm, timeout 60000 ms,
interval 100 ms, connectable, device name included, payload attached — but
`advertiseMode` is 0, which under the LOW_POWER=0 / BALANCED=1 /
LOW_LATENCY=2 encoding is LOW_POWER, not the BALANCED (1) the claim, the
spec and the code's own `ADVERTISE_MODE_BALANCED` comment call for. -/
theorem createPaymentConfig_fields (deviceName serviceUUID : String)
    (payload : BLEPaymentPayload) :
    (createPaymentAdvertisingConfig deviceName serviceUUID payload).txPowerLevel = -12 ∧
    (createPaymentAdvertisingConfig deviceName serviceUUID payload).advertiseMode = 0 ∧
    (createPaymentAdvertisingConfig deviceName serviceUUID payload).advertiseMode ≠ 1 ∧
    (createPaymentAdvertisingConfig deviceName serviceUUID payload).timeout = some 60000 ∧
    (createPaymentAdvertisingConfig deviceName serviceUUID payload).interval = some 100 ∧
    (createPaymentAdvertisingConfig deviceName serviceUUID payload).connectable = true ∧
    (createPaymentAdvertisingConfig deviceName serviceUUID payload).includeDeviceName = true ∧
    (createPaymentAdvertisingConfig deviceName serviceUUID payload).deviceName = deviceName ∧
    (createPaymentAdvertisingConfig deviceName serviceUUID payload).payload = some payload := by
  refine ⟨rfl, rfl, ?_, rfl, rfl, rfl, rfl, rfl, rfl⟩
  simp [createPaymentAdvertisingConfig]

/-! ## Claim C9 -/

/-- Claim C9: with zero records in the metrics store, the statistics are
all zero and `averageDuration` is 0 — the guard avoids the division. -/
theorem statistics_empty_store (st : TrackerState) (h : st.metrics = []) :
    getAdvertisingStatistics st =
      { totalSessions := 0, successfulSessions := 0, failedSessions := 0,
        averageDuration := 0, totalRestarts := 0, payloadTransmissions := 0 } := by
  simp [getAdvertisingStatistics, metricsValues, h]

/-- Witness for `statistics_empty_store` at the initial state. -/
theorem statistics_empty_store_witness :
    getAdvertisingStatistics initialState =
      { totalSessions := 0, successfulSessions := 0, failedSessions := 0,
        averageDuration := 0, totalRestarts := 0, payloadTransmissions := 0 } :=
  statistics_empty_store initialState rfl

/-! ## Claim C10 -/

/-- Claim C10: the interval check is guarded by JS truthiness, so an
explicit interval of 0 — outside the documented [20,10240] range — raises
no interval error, and with every other rule satisfied such a config is
reported valid; the interval error arises exactly for a present, non-zero
interval outside [20,10240]. -/
theorem interval_zero_is_accepted (c : AdvertisingConfig) :
    (c.interval = some 0 →
      "Advertising interval must be between 20ms and 10240ms" ∉
        (validateAdvertisingConfig c).errors) ∧
    (∀ i, c.interval = some i → i ≠ 0 → (i < 20 ∨ 10240 < i) →
      "Advertising interval must be between 20ms and 10240ms" ∈
        (validateAdvertisingConfig c).errors) ∧
    (c.interval = some 0 → c.deviceName ≠ "" → isValidUUID c.serviceUUID = true →
      -30 ≤ c.txPowerLevel → c.txPowerLevel ≤ 10 →
      0 ≤ c.advertiseMode → c.advertiseMode ≤ 2 →
      (∀ p, c.payload = some p → p.walletAddress ≠ "" ∧ p.timestamp ≠ 0) →
      (validateAdvertisingConfig c).valid = true) := by
  refine ⟨?_, ?_, ?_⟩
  · intro h0 hmem
    obtain ⟨i, hi, hne, -⟩ := (mem_interval_error c).mp hmem
    rw [h0] at hi
    injection hi with hi0
    exact hne hi0.symm
  · intro i hi hne hout
    exact (mem_interval_error c).mpr ⟨i, hi, hne, hout⟩
  · intro h0 hdn huuid htx1 htx2 ham1 ham2 hpl
    have hsu : c.serviceUUID ≠ "" := by
      intro hempty
      rw [hempty] at huuid
      exact absurd huuid (by decide)
    rw [valid_iff_errors_nil]
    obtain ⟨dn, su, md, tx, am, b1, b2, b3, tmo, iv, pl⟩ := c
    simp only at h0 hdn huuid htx1 htx2 ham1 ham2 hpl hsu
    subst h0
    cases pl with
    | none =>
      simp [validateAdvertisingConfig, hdn, hsu, huuid,
        show ¬ tx < -30 by omega, show ¬ tx > 10 by omega,
        show ¬ am < 0 by omega, show ¬ am > 2 by omega]
    | some p =>
      obtain ⟨hw, ht⟩ := hpl p rfl
      simp [validateAdvertisingConfig, hdn, hsu, huuid, hw, ht,
        show ¬ tx < -30 by omega, show ¬ tx > 10 by omega,
        show ¬ am < 0 by omega, show ¬ am > 2 by omega]

/-- Witness for `interval_zero_is_accepted` at concrete configs. -/
theorem interval_zero_is_accepted_witness :
    ("Advertising interval must be between 20ms and 10240ms" ∉
      (validateAdvertisingConfig zeroIntervalConfig).errors) ∧
    ("Advertising interval must be between 20ms and 10240ms" ∈
      (validateAdvertisingConfig { validConfig with interval := some 5 }).errors) ∧
    (validateAdvertisingConfig zeroIntervalConfig).valid = true :=
  ⟨(interval_zero_is_accepted zeroIntervalConfig).1 rfl,
   (interval_zero_is_accepted { validConfig with interval := some 5 }).2.1 5 rfl
      (by decide) (Or.inl (by decide)),
   (interval_zero_is_accepted zeroIntervalConfig).2.2 rfl (by decide) (by decide)
      (by decide) (by decide) (by decide) (by decide)
      (fun p hp => absurd hp (by simp [zeroIntervalConfig, validConfig]))⟩

end AirChainPay
